import Mathlib

/-!
Verification of the RideJournalServer resource-service layer.

The definitions below are a shallow embedding of the JavaScript source:
the Sequelize-backed vehicle controller (vehicleController.js), the event
router (eventRoutes.js), the image router (imageRoutes.js), and the small
pieces of the data model those files exercise.  The Store is modelled as a
Lean list of rows in insertion order; Sequelize calls become plain list
operations; a JavaScript runtime exception (dereferencing a null row) is
modelled as the value none of an Option result.
-/

namespace RideJournal

/-! ## Data model -/

/-- Vehicle rows as the vehicle controller uses them: a surrogate id, the
owning user id, a type classification, an image reference and the creation
timestamp that the controller orders by. -/
structure Vehicle where
  id : Nat
  userId : Nat
  type : String
  image : String
  createdAt : Nat
deriving Repr, DecidableEq

/-- The payload of a vehicle create request: the owning user id, the type
classification, and an optional inline image payload.  A missing image field
of the JSON body is none. -/
structure VehiclePayload where
  userId : Nat
  type : String
  image : Option String
deriving Repr, DecidableEq

/-- The payload of a vehicle update request: every field optional, mirroring
partial field replacement. -/
structure VehicleUpdatePayload where
  userId : Option Nat
  type : Option String
  image : Option String
deriving Repr, DecidableEq

/-! ## Store primitives

The Store is a list of rows in insertion order.  findOne with a where clause
on id is the first row with that id; findAll with no order clause returns the
rows in store order; an order clause of CreatedAt descending is an insertion
sort by the createdAt field, newest first. -/

/-- Insert a row into a list that is already sorted descending by the key. -/
def insertByDesc (key : α → Nat) (v : α) : List α → List α
  | [] => [v]
  | w :: ws => if key w ≤ key v then v :: w :: ws else w :: insertByDesc key v ws

/-- Sort a list descending by the given key (stable for the proofs here). -/
def orderByDesc (key : α → Nat) (l : List α) : List α :=
  l.foldr (insertByDesc key) []

/-- JavaScript truthiness of an optional string field: undefined and the
empty string are falsy, every other string is truthy. -/
def truthy : Option String → Bool
  | none => false
  | some s => !(s == "")

/-! ## Vehicle controller (vehicleController.js)

saveImage is the Blob Store collaborator (uploadManager.js): it receives the
inline image payload and a category and returns the stored reference name.
The controller is parameterised by it. -/

/-- Pagination input as the routes pass it to the controller, after the
route-level parseInt normalization. -/
structure Pagination where
  limit : Int
  offset : Int
deriving Repr, DecidableEq

/-- getVehicles: findAll ordered by CreatedAt descending with limit and
offset.  A negative limit or offset is rejected by the Store as a query
error, modelled as none; otherwise the page is drop offset, take limit of
the descending-ordered rows. -/
def getVehicles (p : Pagination) (st : List Vehicle) : Option (List Vehicle) :=
  if p.limit < 0 ∨ p.offset < 0 then none
  else some (((orderByDesc Vehicle.createdAt st).drop p.offset.toNat).take p.limit.toNat)

/-- getVehicle: findOne where id. -/
def getVehicle (id : Nat) (st : List Vehicle) : Option Vehicle :=
  st.find? (fun v => v.id == id)

/-- getVehiclesByType: findAll where type equals the requested type, with no
order clause, no limit and no offset — the rows come back in store order. -/
def getVehiclesByType (type : String) (st : List Vehicle) : List Vehicle :=
  st.filter (fun v => v.type == type)

/-- Result of createVehicle: the 401 sentinel, or the created row. -/
inductive CreateVehicleResult where
  | unauthorized
  | created (v : Vehicle)
deriving Repr, DecidableEq

/-- createVehicle: rejects with the 401 sentinel when the payload userId
differs from the token user; otherwise stores the Blob Store reference of a
truthy inline image, or the literal default.png when the image field is
absent or empty, and persists the row. -/
def createVehicle (saveImage : String → String → String) (data : VehiclePayload)
    (tokenUserId : Nat) (now newId : Nat) (st : List Vehicle) :
    CreateVehicleResult × List Vehicle :=
  if data.userId ≠ tokenUserId then (.unauthorized, st)
  else
    let img :=
      match data.image with
      | some s => if s == "" then "default.png" else saveImage s "vehicle"
      | none => "default.png"
    let v : Vehicle :=
      { id := newId, userId := data.userId, type := data.type, image := img, createdAt := now }
    (.created v, st ++ [v])

/-- Result of updateVehicle: the 401 sentinel, or the Sequelize update
result (the count of affected rows). -/
inductive UpdateVehicleResult where
  | unauthorized
  | updated (count : Nat)
deriving Repr, DecidableEq

/-- Partial field replacement of an update payload on an existing row; a
truthy inline image is replaced by its Blob Store reference, and an absent
or empty image field leaves the stored image unchanged. -/
def applyVehicleUpdate (saveImage : String → String → String)
    (d : VehicleUpdatePayload) (v : Vehicle) : Vehicle :=
  let v1 : Vehicle :=
    { v with userId := d.userId.getD v.userId, type := d.type.getD v.type }
  match d.image with
  | some s => if s == "" then v1 else { v1 with image := saveImage s "vehicle" }
  | none => v1

/-- updateVehicle: loads the row with findOne, then reads the userId field
of the result without a null check — when no row has the id, findOne yields
null and the field access throws a TypeError, modelled as none.  When the
row exists, a caller other than the stored owner gets the 401 sentinel and
the store is untouched; the owner gets a partial update of the matching
rows. -/
def updateVehicle (saveImage : String → String → String) (id : Nat)
    (d : VehicleUpdatePayload) (tokenUserId : Nat) (st : List Vehicle) :
    Option (UpdateVehicleResult × List Vehicle) :=
  match st.find? (fun v => v.id == id) with
  | none => none
  | some row =>
    if row.userId ≠ tokenUserId then some (.unauthorized, st)
    else
      some (.updated (st.filter (fun v => v.id == id)).length,
            st.map (fun v => if v.id == id then applyVehicleUpdate saveImage d v else v))

/-- Result of deleteVehicle: the 401 sentinel, or the destroy count. -/
inductive DeleteVehicleResult where
  | unauthorized
  | deleted (count : Nat)
deriving Repr, DecidableEq

/-- deleteVehicle: loads the row with findOne and reads its userId with no
null check, so a missing id throws (none).  A caller other than the stored
owner gets the 401 sentinel with the store untouched; the owner gets destroy
where id. -/
def deleteVehicle (id : Nat) (tokenUserId : Nat) (st : List Vehicle) :
    Option (DeleteVehicleResult × List Vehicle) :=
  match st.find? (fun v => v.id == id) with
  | none => none
  | some row =>
    if row.userId ≠ tokenUserId then some (.unauthorized, st)
    else
      some (.deleted (st.filter (fun v => v.id == id)).length,
            st.filter (fun v => !(v.id == id)))

/-! ## Route-level pagination normalization (eventRoutes.js lines 41 to 42)

The routes compute parseInt(query, 10) and fall back to the default with the
JavaScript or-operator, which also replaces NaN and 0 since both are falsy. -/

/-- Numeric value of a list of decimal digit characters. -/
def digitsVal (cs : List Char) : Nat :=
  cs.foldl (fun a c => a * 10 + (c.toNat - 48)) 0

/-- jsParseInt models parseInt(s, 10): an optional leading minus sign
followed by the longest decimal digit prefix; no digit at all gives NaN,
modelled as none. -/
def jsParseInt (s : String) : Option Int :=
  match s.data with
  | '-' :: cs =>
    let ds := cs.takeWhile Char.isDigit
    if ds.isEmpty then none else some (-(digitsVal ds : Int))
  | cs =>
    let ds := cs.takeWhile Char.isDigit
    if ds.isEmpty then none else some ((digitsVal ds : Int))

/-- parseInt applied to a query parameter that may be absent: parseInt of
undefined is NaN. -/
def parsedParam (q : Option String) : Option Int :=
  q.bind jsParseInt

/-- The JavaScript or-operator on a parseInt result: NaN (none) and 0 are
falsy, so both fall back to the default. -/
def jsOr (v : Option Int) (d : Int) : Int :=
  match v with
  | none => d
  | some 0 => d
  | some n => n

/-- Normalized limit of a list route: parseInt of the query or 10. -/
def normLimit (q : Option String) : Int :=
  jsOr (parsedParam q) 10

/-- Normalized offset of a list route: parseInt of the query or 0. -/
def normOffset (q : Option String) : Int :=
  jsOr (parsedParam q) 0

/-! ## Event data model and controller

The event controller file is not part of the provided sources; its
behaviour is modelled from the spec and from the contract visible in
eventRoutes.js (the routes translate the sentinel 404 to a status-only 404
response and the sentinel 401 to a 401 errors response). -/

/-- Event rows.  Modelled from the spec: every Event row carries its own
explicit userId owner field, recorded at creation, independent of the
owning Vehicle; the remaining fields follow the Event model definition and
the event route request schema, plus the createdAt timestamp used for list
ordering. -/
structure EventRow where
  id : Nat
  userId : Nat
  vehicleId : Nat
  title : String
  detail : Option String
  type : String
  date : String
  published : Bool
  createdAt : Nat
deriving Repr, DecidableEq

/-- The payload of an event create request, per the event route schema. -/
structure EventPayload where
  userId : Nat
  vehicleId : Nat
  title : String
  detail : Option String
  type : String
  date : String
  published : Bool
deriving Repr, DecidableEq

/-- The payload of an event update request: partial field replacement. -/
structure EventUpdatePayload where
  userId : Option Nat
  vehicleId : Option Nat
  title : Option String
  detail : Option String
  type : Option String
  date : Option String
  published : Option Bool
deriving Repr, DecidableEq

/-- Modelled from the spec: getEvents in the missing event controller has
the same list contract as getVehicles — findAll ordered by creation time
descending with limit and offset, negative values rejected by the Store. -/
def getEvents (p : Pagination) (st : List EventRow) : Option (List EventRow) :=
  if p.limit < 0 ∨ p.offset < 0 then none
  else some (((orderByDesc EventRow.createdAt st).drop p.offset.toNat).take p.limit.toNat)

/-- Modelled from the spec: getEvent in the missing event controller is
findOne where id. -/
def getEvent (id : Nat) (st : List EventRow) : Option EventRow :=
  st.find? (fun e => e.id == id)

/-- Result of createEvent: the sentinel 404 when the referenced vehicle
does not exist, the sentinel 401 when the payload userId differs from the
token user, or the created row. -/
inductive CreateEventResult where
  | notFound
  | unauthorized
  | created (e : EventRow)
deriving Repr, DecidableEq

/-- Modelled from the spec: createEvent in the missing event controller
validates that the payload userId equals the caller id before persisting,
rejects a dangling vehicleId reference with the 404 sentinel the route
translates, and otherwise persists a row that records the payload userId as
the owner field of the Event itself. -/
def createEvent (vehicles : List Vehicle) (p : EventPayload) (tokenUserId : Nat)
    (now newId : Nat) (st : List EventRow) : CreateEventResult × List EventRow :=
  if p.userId ≠ tokenUserId then (.unauthorized, st)
  else
    match vehicles.find? (fun v => v.id == p.vehicleId) with
    | none => (.notFound, st)
    | some _ =>
      let e : EventRow :=
        { id := newId, userId := p.userId, vehicleId := p.vehicleId, title := p.title,
          detail := p.detail, type := p.type, date := p.date, published := p.published,
          createdAt := now }
      (.created e, st ++ [e])

/-- Result of updateEvent or deleteEvent: the 404 sentinel for a missing
row, the 401 sentinel for a caller other than the stored owner, or the
successful result count. -/
inductive EventMutationResult where
  | notFound
  | unauthorized
  | done (count : Nat)
deriving Repr, DecidableEq

/-- Partial field replacement of an event update payload on a row. -/
def applyEventUpdate (d : EventUpdatePayload) (e : EventRow) : EventRow :=
  { e with
    userId := d.userId.getD e.userId, vehicleId := d.vehicleId.getD e.vehicleId,
    title := d.title.getD e.title, detail := (d.detail.map some).getD e.detail,
    type := d.type.getD e.type, date := d.date.getD e.date,
    published := d.published.getD e.published }

/-- Modelled from the spec: updateEvent in the missing event controller
loads the existing row first; if absent, the 404 sentinel; else it compares
the stored userId owner field of the Event — not the Vehicle owner and not
the payload userId — against the caller, answering the 401 sentinel on
mismatch and otherwise applying the partial update. -/
def updateEvent (id : Nat) (d : EventUpdatePayload) (tokenUserId : Nat)
    (st : List EventRow) : EventMutationResult × List EventRow :=
  match st.find? (fun e => e.id == id) with
  | none => (.notFound, st)
  | some row =>
    if row.userId ≠ tokenUserId then (.unauthorized, st)
    else
      (.done (st.filter (fun e => e.id == id)).length,
       st.map (fun e => if e.id == id then applyEventUpdate d e else e))

/-- Modelled from the spec: deleteEvent in the missing event controller has
the same load-then-compare-owner pattern as updateEvent, then destroys the
matching rows. -/
def deleteEvent (id : Nat) (tokenUserId : Nat) (st : List EventRow) :
    EventMutationResult × List EventRow :=
  match st.find? (fun e => e.id == id) with
  | none => (.notFound, st)
  | some row =>
    if row.userId ≠ tokenUserId then (.unauthorized, st)
    else
      (.done (st.filter (fun e => e.id == id)).length,
       st.filter (fun e => !(e.id == id)))

/-! ## User, Comment and Image data -/

/-- User rows: handle, credential hash and contact email, per the spec data
model. -/
structure UserRow where
  id : Nat
  name : String
  password : String
  email : String
deriving Repr, DecidableEq

/-- Comment rows: authored by a user, attached to an event, free text. -/
structure CommentRow where
  id : Nat
  userId : Nat
  eventId : Nat
  content : String
deriving Repr, DecidableEq

/-- Image rows: attached to an event and carrying the Blob Store
reference. -/
structure ImageRow where
  id : Nat
  eventId : Nat
  link : String
deriving Repr, DecidableEq

/-! ## Eager-load projection of an event (the include route)

The toJSON projection of a nested user is a JSON object, modelled as an
association list from field names to string values, so that the delete
statements of the route can remove keys. -/

/-- JSON projection of a user row with all model fields present, as toJSON
yields it before any stripping. -/
def userToJSON (u : UserRow) : List (String × String) :=
  [("id", toString u.id), ("name", u.name), ("password", u.password), ("email", u.email)]

/-- The delete statement on a JSON object: removes the key. -/
def deleteKey (k : String) (o : List (String × String)) : List (String × String) :=
  o.filter (fun kv => !(kv.1 == k))

/-- The projection returned by the include query of an event: the event row
with its direct associations eager-loaded one level deep — the owning User
as a JSON object, and the Comments and Images attached to the event as
plain rows (a non-nested include does not load the authors of the
comments). -/
structure EventInclude where
  event : EventRow
  User : Option (List (String × String))
  Comments : List CommentRow
  Images : List ImageRow
deriving Repr, DecidableEq

/-- Modelled from the spec: getEventIncludeAll in the missing event
controller is findOne where id with include all, which — exactly as
getVehicleIncludeAll in the vehicle controller — eager-loads the direct
associations one level deep without nesting. -/
def getEventIncludeAll (id : Nat) (events : List EventRow) (users : List UserRow)
    (comments : List CommentRow) (images : List ImageRow) : Option EventInclude :=
  match events.find? (fun e => e.id == id) with
  | none => none
  | some e =>
    some { event := e,
           User := (users.find? (fun u => u.id == e.userId)).map userToJSON,
           Comments := comments.filter (fun c => c.eventId == e.id),
           Images := images.filter (fun i => i.eventId == e.id) }

/-! ## Responses

A response body is either the success envelope with result 200 and a data
payload, a bare payload sent without the envelope, a status-only response
(sendStatus), or a status-with-errors-list response (status plus json
errors), or an opaque failure handed to the error middleware. -/

inductive RespBody (α : Type) where
  | enveloped (result : Nat) (data : α)
  | bare (data : α)
  | statusOnly (code : Nat)
  | errorsJson (code : Nat)
  | opaqueFailure
deriving Repr, DecidableEq

/-- A body counts as a success when it carries a payload: the envelope or a
bare send. -/
def isSuccessBody : RespBody α → Bool
  | .enveloped _ _ => true
  | .bare _ => true
  | _ => false

/-- Whether a body is the success envelope. -/
def isEnveloped : RespBody α → Bool
  | .enveloped _ _ => true
  | _ => false

/-- Every successful body is wrapped in the envelope. -/
def envelopedIfSuccess (b : RespBody α) : Bool :=
  !(isSuccessBody b) || isEnveloped b

/-! ## Event routes (eventRoutes.js)

verifyToken is the auth middleware, which is not among the provided
sources.  Modelled from the spec: the Identity Context resolves the bearer
credential of a request to a caller id or signals that it is absent or
invalid; verifyToken rejects the latter with a 401 errors response before
the handler runs, and otherwise passes the id to the handler as the request
userId.  A request credential is therefore an Option Nat: none when absent
or invalid, some uid when verified. -/

/-- GET /api/events: normalizes limit and offset and sends the list in the
envelope; a Store failure propagates as an opaque error. -/
def eventsIndexRoute (qlimit qoffset : Option String) (st : List EventRow) :
    RespBody (List EventRow) :=
  match getEvents { limit := normLimit qlimit, offset := normOffset qoffset } st with
  | none => .opaqueFailure
  | some d => .enveloped 200 d

/-- GET /api/events/:id: 404 when absent, else the envelope. -/
def eventsGetRoute (id : Nat) (st : List EventRow) : RespBody EventRow :=
  match getEvent id st with
  | none => .statusOnly 404
  | some e => .enveloped 200 e

/-- GET /api/events/:id/include: 404 when absent; otherwise the projection
is filtered — when a nested User object is present, its password and email
keys are deleted — and sent in the envelope (eventRoutes.js lines 119 to
140). -/
def eventsIncludeRoute (id : Nat) (events : List EventRow) (users : List UserRow)
    (comments : List CommentRow) (images : List ImageRow) : RespBody EventInclude :=
  match getEventIncludeAll id events users comments images with
  | none => .statusOnly 404
  | some data =>
    .enveloped 200
      { data with User := data.User.map (fun u => deleteKey "email" (deleteKey "password" u)) }

/-- POST /api/events: verifyToken first — an absent or invalid credential
is rejected with a 401 errors response and the controller never runs; then
the controller sentinels 404 and 401 are translated, and a created row is
sent in the envelope. -/
def eventsPostRoute (cred : Option Nat) (vehicles : List Vehicle) (p : EventPayload)
    (now newId : Nat) (st : List EventRow) : RespBody EventRow × List EventRow :=
  match cred with
  | none => (.errorsJson 401, st)
  | some uid =>
    match createEvent vehicles p uid now newId st with
    | (.notFound, st1) => (.statusOnly 404, st1)
    | (.unauthorized, st1) => (.errorsJson 401, st1)
    | (.created e, st1) => (.enveloped 200 e, st1)

/-- PUT /api/events/:id: verifyToken first, then the controller sentinels
are translated as in the create route. -/
def eventsPutRoute (cred : Option Nat) (id : Nat) (d : EventUpdatePayload)
    (st : List EventRow) : RespBody Nat × List EventRow :=
  match cred with
  | none => (.errorsJson 401, st)
  | some uid =>
    match updateEvent id d uid st with
    | (.notFound, st1) => (.statusOnly 404, st1)
    | (.unauthorized, st1) => (.errorsJson 401, st1)
    | (.done n, st1) => (.enveloped 200 n, st1)

/-- DELETE /api/events/:id: verifyToken first, then the controller
sentinels are translated as in the create route. -/
def eventsDeleteRoute (cred : Option Nat) (id : Nat) (st : List EventRow) :
    RespBody Nat × List EventRow :=
  match cred with
  | none => (.errorsJson 401, st)
  | some uid =>
    match deleteEvent id uid st with
    | (.notFound, st1) => (.statusOnly 404, st1)
    | (.unauthorized, st1) => (.errorsJson 401, st1)
    | (.done n, st1) => (.enveloped 200 n, st1)

/-! ## Image controller and routes (imageRoutes.js)

The image controller file is not among the provided sources; its operations
are modelled from the spec as the plain Store calls the routes invoke.  The
routes themselves are taken directly from imageRoutes.js: none of them
mounts the verifyToken middleware, so the handlers run for any request. -/

/-- Modelled from the spec: getImages in the missing image controller is
findAll of the image table. -/
def getImages (st : List ImageRow) : List ImageRow :=
  st

/-- Modelled from the spec: getImage in the missing image controller is
findOne where id. -/
def getImage (id : Nat) (st : List ImageRow) : Option ImageRow :=
  st.find? (fun i => i.id == id)

/-- Modelled from the spec: getImagesByEvent in the missing image
controller is findAll where eventId. -/
def getImagesByEvent (id : Nat) (st : List ImageRow) : List ImageRow :=
  st.filter (fun i => i.eventId == id)

/-- The payload of an image create request, per the image route schema. -/
structure ImagePayload where
  eventId : Nat
  image : String
deriving Repr, DecidableEq

/-- Modelled from the spec: createImage in the missing image controller
persists a row for the event carrying the stored reference and returns
it. -/
def createImage (p : ImagePayload) (newId : Nat) (st : List ImageRow) :
    ImageRow × List ImageRow :=
  let row : ImageRow := { id := newId, eventId := p.eventId, link := p.image }
  (row, st ++ [row])

/-- Modelled from the spec: deleteImage in the missing image controller is
destroy where id, returning the destroy count. -/
def deleteImage (id : Nat) (st : List ImageRow) : Nat × List ImageRow :=
  ((st.filter (fun i => i.id == id)).length, st.filter (fun i => !(i.id == id)))

/-- GET /api/images (imageRoutes.js lines 25 to 32): sends the controller
data bare, with no envelope. -/
def imagesIndexRoute (st : List ImageRow) : RespBody (List ImageRow) :=
  .bare (getImages st)

/-- GET /api/images/:id, first registration (imageRoutes.js line 59): 404
when absent, else the envelope. -/
def imagesGetRoute (id : Nat) (st : List ImageRow) : RespBody ImageRow :=
  match getImage id st with
  | none => .statusOnly 404
  | some i => .enveloped 200 i

/-- GET /api/images/:id, second registration (imageRoutes.js line 102): the
by-event lookup, sending the matching rows in the envelope; an empty list
is truthy in JavaScript, so the 404 branch only fires on a null result. -/
def imagesByEventRoute (id : Nat) (st : List ImageRow) : RespBody (List ImageRow) :=
  .enveloped 200 (getImagesByEvent id st)

/-- POST /api/images (imageRoutes.js line 154): the middleware chain is
only the body validator — no verifyToken — so the handler runs for any
credential and the created row, always truthy, is sent in the envelope. -/
def imagesPostRoute (cred : Option Nat) (p : ImagePayload) (newId : Nat)
    (st : List ImageRow) : RespBody ImageRow × List ImageRow :=
  let r := createImage p newId st
  (.enveloped 200 r.1, r.2)

/-- DELETE /api/images/:id (imageRoutes.js line 197): no verifyToken — the
handler runs for any credential; a destroy count of 0 is falsy and yields
404, otherwise the count is sent in the envelope. -/
def imagesDeleteRoute (cred : Option Nat) (id : Nat) (st : List ImageRow) :
    RespBody Nat × List ImageRow :=
  let r := deleteImage id st
  if r.1 == 0 then (.statusOnly 404, r.2) else (.enveloped 200 r.1, r.2)

/-! ## Express dispatch of the image GET routes

Express tries the GET registrations of a router in registration order and
the first whose path pattern matches handles the request.  The GET patterns
of imageRoutes.js, in order, are the root path, then two identical
single-parameter patterns — the by-id handler at line 59 and the by-event
handler at line 102. -/

/-- A registered GET path pattern of the image router: the root path, or a
single path parameter segment. -/
inductive RoutePattern where
  | root
  | oneParam
deriving Repr, DecidableEq

/-- The GET handlers of the image router. -/
inductive ImageGetHandler where
  | listAll
  | getById
  | getByEvent
deriving Repr, DecidableEq

/-- Whether a pattern matches a request path, given as its segments. -/
def patternMatches : RoutePattern → List String → Bool
  | .root, [] => true
  | .oneParam, [_] => true
  | _, _ => false

/-- The GET registrations of imageRoutes.js in source order: the root list
route, the by-id route at the one-parameter pattern, then the by-event
route at the same one-parameter pattern. -/
def imageGetRegistrations : List (RoutePattern × ImageGetHandler) :=
  [(.root, .listAll), (.oneParam, .getById), (.oneParam, .getByEvent)]

/-- Express dispatch: the handler of the first registration whose pattern
matches the path. -/
def dispatchImageGet (path : List String) : Option ImageGetHandler :=
  (imageGetRegistrations.find? (fun r => patternMatches r.1 path)).map (fun r => r.2)

/-! ## Theorems -/

/-- C1: for every Vehicle mutation — create, update, delete — when the
caller id differs from the recorded owner userId (for create, the payload
userId), the operation returns the 401 AuthorizationDenied sentinel and the
Store is returned unchanged: no row is created, modified or removed. -/
theorem vehicleMutationDeniedWhenNotOwner (saveImage : String → String → String)
    (d : VehiclePayload) (du : VehicleUpdatePayload) (caller now newId id : Nat)
    (st : List Vehicle) (row : Vehicle)
    (hc : d.userId ≠ caller)
    (hrow : st.find? (fun v => v.id == id) = some row)
    (hown : row.userId ≠ caller) :
    createVehicle saveImage d caller now newId st = (.unauthorized, st)
    ∧ updateVehicle saveImage id du caller st = some (.unauthorized, st)
    ∧ deleteVehicle id caller st = some (.unauthorized, st) := by
  refine ⟨?_, ?_, ?_⟩
  · simp [createVehicle, hc]
  · simp [updateVehicle, hrow, hown]
  · simp [deleteVehicle, hrow, hown]

/-- Witness for C1 at a concrete store with one vehicle owned by user 2 and
caller 1. -/
theorem vehicleMutationDeniedWhenNotOwner_witness :
    createVehicle (fun s _ => s) ⟨2, "suv", none⟩ 1 5 9 [⟨7, 2, "suv", "default.png", 0⟩]
        = (.unauthorized, [⟨7, 2, "suv", "default.png", 0⟩])
    ∧ updateVehicle (fun s _ => s) 7 ⟨none, none, none⟩ 1 [⟨7, 2, "suv", "default.png", 0⟩]
        = some (.unauthorized, [⟨7, 2, "suv", "default.png", 0⟩])
    ∧ deleteVehicle 7 1 [⟨7, 2, "suv", "default.png", 0⟩]
        = some (.unauthorized, [⟨7, 2, "suv", "default.png", 0⟩]) :=
  vehicleMutationDeniedWhenNotOwner (fun s _ => s) ⟨2, "suv", none⟩ ⟨none, none, none⟩
    1 5 9 7 [⟨7, 2, "suv", "default.png", 0⟩] ⟨7, 2, "suv", "default.png", 0⟩
    (by decide) (by rfl) (by decide)

/-- C2: evaluating the vehicle controller at an id that matches no row.
updateVehicle and deleteVehicle read the userId field of the findOne result
with no null check, so the call throws — modelled as none — instead of
producing any NotFound outcome; indeed their result types have no NotFound
sentinel at all. -/
theorem vehicleUpdateDeleteMissingRowThrows :
    updateVehicle (fun s _ => s) 1 ⟨none, none, none⟩ 1 [] = none
    ∧ deleteVehicle 1 1 [] = none :=
  ⟨rfl, rfl⟩

/-- C3: every Event row records the payload userId as its own owner field
at creation; update and delete authorization is exactly the comparison of
the caller against that stored field (update and delete do not read the
vehicle table at all); and createEvent depends on the vehicle table only
through the existence of the referenced id, never through the Vehicle
owner. -/
theorem eventOwnerFieldAuthorization :
    (∀ (vehicles : List Vehicle) (p : EventPayload) (tok now newId : Nat)
        (st st1 : List EventRow) (e : EventRow),
      createEvent vehicles p tok now newId st = (.created e, st1) → e.userId = p.userId)
    ∧ (∀ (id : Nat) (d : EventUpdatePayload) (caller : Nat) (st : List EventRow)
        (row : EventRow), st.find? (fun e => e.id == id) = some row →
      (updateEvent id d caller st = (.unauthorized, st) ↔ row.userId ≠ caller))
    ∧ (∀ (id caller : Nat) (st : List EventRow) (row : EventRow),
        st.find? (fun e => e.id == id) = some row →
      (deleteEvent id caller st = (.unauthorized, st) ↔ row.userId ≠ caller))
    ∧ (∀ (vehicles vehicles1 : List Vehicle) (p : EventPayload) (tok now newId : Nat)
        (st : List EventRow),
      (vehicles.find? (fun v => v.id == p.vehicleId)).isSome
          = (vehicles1.find? (fun v => v.id == p.vehicleId)).isSome →
      createEvent vehicles p tok now newId st = createEvent vehicles1 p tok now newId st) := by
  refine ⟨?_, ?_, ?_, ?_⟩
  · intro vehicles p tok now newId st st1 e h
    unfold createEvent at h
    split at h
    · simp at h
    · split at h
      · simp at h
      · simp only [Prod.mk.injEq, CreateEventResult.created.injEq] at h
        rw [← h.1]
  · intro id d caller st row hfind
    unfold updateEvent
    rw [hfind]
    by_cases hown : row.userId = caller
    · simp [hown]
    · simp [hown]
  · intro id caller st row hfind
    unfold deleteEvent
    rw [hfind]
    by_cases hown : row.userId = caller
    · simp [hown]
    · simp [hown]
  · intro vehicles vehicles1 p tok now newId st hiso
    unfold createEvent
    by_cases hauth : p.userId = tok
    · cases hf : vehicles.find? (fun v => v.id == p.vehicleId) with
      | none =>
        cases hf1 : vehicles1.find? (fun v => v.id == p.vehicleId) with
        | none => simp [hf, hf1]
        | some w => rw [hf, hf1] at hiso; simp at hiso
      | some v =>
        cases hf1 : vehicles1.find? (fun v => v.id == p.vehicleId) with
        | none => rw [hf, hf1] at hiso; simp at hiso
        | some w => simp [hf, hf1]
    · simp [hauth]

/-- Witness for C3 at a concrete event store: the event with stored owner 4
is protected against caller 8. -/
theorem eventOwnerFieldAuthorization_witness :
    updateEvent 3 ⟨none, none, none, none, none, none, none⟩ 8
        [⟨3, 4, 1, "t", none, "story", "2023-06-12", true, 0⟩]
      = (.unauthorized, [⟨3, 4, 1, "t", none, "story", "2023-06-12", true, 0⟩]) :=
  (eventOwnerFieldAuthorization.2.1 3 ⟨none, none, none, none, none, none, none⟩ 8
      [⟨3, 4, 1, "t", none, "story", "2023-06-12", true, 0⟩]
      ⟨3, 4, 1, "t", none, "story", "2023-06-12", true, 0⟩ (by rfl)).mpr (by decide)

/-- A JSON object carries neither a password key nor an email key. -/
def noSensitiveKeys (o : List (String × String)) : Bool :=
  o.all (fun kv => !(kv.1 == "password") && !(kv.1 == "email"))

/-- A nested user projection, when present, carries no sensitive key. -/
def userProjectionClean : Option (List (String × String)) → Bool
  | none => true
  | some u => noSensitiveKeys u

/-- An include response is clean when every enveloped payload has a clean
nested user projection. -/
def includeRespClean : RespBody EventInclude → Bool
  | .enveloped _ r => userProjectionClean r.User
  | _ => true

/-- Deleting the password key and then the email key leaves an object with
no sensitive key, whatever the object was. -/
theorem noSensitiveKeys_deleteKey (u : List (String × String)) :
    noSensitiveKeys (deleteKey "email" (deleteKey "password" u)) = true := by
  unfold noSensitiveKeys deleteKey
  rw [List.all_eq_true]
  intro kv hkv
  have h1 := List.mem_filter.mp hkv
  have h2 := List.mem_filter.mp h1.1
  rw [Bool.and_eq_true]
  exact ⟨h2.2, h1.2⟩

/-- C4: for every event id and all stores, the include route response never
carries a password or email key in the nested user projection: the route
deletes both keys before sending, and the single-level eager load attaches
comments as plain rows, so no further user object occurs anywhere in the
projection. -/
theorem eventIncludeStripsSensitiveFields (id : Nat) (events : List EventRow)
    (users : List UserRow) (comments : List CommentRow) (images : List ImageRow) :
    includeRespClean (eventsIncludeRoute id events users comments images) = true := by
  unfold eventsIncludeRoute
  cases hf : getEventIncludeAll id events users comments images with
  | none => rfl
  | some data =>
    show userProjectionClean (data.User.map
      (fun u => deleteKey "email" (deleteKey "password" u))) = true
    cases data.User with
    | none => rfl
    | some u => exact noSensitiveKeys_deleteKey u

/-- C5 counterexample: with no credential at all, the image create route
still executes the core operation — a row is persisted and the response is
the 200 envelope, not any unauthorized outcome — and the image delete route
likewise removes the row. -/
theorem imageMutationRunsWithoutCredential :
    (imagesPostRoute none ⟨3, "a.jpg"⟩ 7 []).2 = [⟨7, 3, "a.jpg"⟩]
    ∧ (imagesPostRoute none ⟨3, "a.jpg"⟩ 7 []).1 = .enveloped 200 ⟨7, 3, "a.jpg"⟩
    ∧ (imagesDeleteRoute none 7 [⟨7, 3, "a.jpg"⟩]).2 = [] := by
  decide

/-- C5 amended: the Event mutation routes mount verifyToken, so an absent
or invalid credential yields the 401 errors response with the store
untouched and the core never runs; the Image create and delete routes mount
no credential check and behave identically for every credential. -/
theorem mutationCredentialRequirement :
    (∀ (vehicles : List Vehicle) (p : EventPayload) (now newId : Nat) (st : List EventRow),
        eventsPostRoute none vehicles p now newId st = (.errorsJson 401, st))
    ∧ (∀ (id : Nat) (d : EventUpdatePayload) (st : List EventRow),
        eventsPutRoute none id d st = (.errorsJson 401, st))
    ∧ (∀ (id : Nat) (st : List EventRow),
        eventsDeleteRoute none id st = (.errorsJson 401, st))
    ∧ (∀ (c c1 : Option Nat) (p : ImagePayload) (newId : Nat) (st : List ImageRow),
        imagesPostRoute c p newId st = imagesPostRoute c1 p newId st)
    ∧ (∀ (c c1 : Option Nat) (id : Nat) (st : List ImageRow),
        imagesDeleteRoute c id st = imagesDeleteRoute c1 id st) :=
  ⟨fun _ _ _ _ _ => rfl, fun _ _ _ => rfl, fun _ _ => rfl,
   fun _ _ _ _ _ => rfl, fun _ _ _ _ => rfl⟩

/-- C6: when the limit and offset query inputs are missing or non-numeric
— parseInt yields NaN — the normalized query is limit 10 and offset 0, the
vehicle list is the first 10 items of the creation-time-descending order,
hence at most 10 items starting from the first; and an explicitly supplied
nonzero numeric limit passes through the normalization uncapped. -/
theorem listPaginationDefaults (qlimit qoffset : Option String) (st : List Vehicle)
    (hl : parsedParam qlimit = none) (ho : parsedParam qoffset = none) :
    normLimit qlimit = 10 ∧ normOffset qoffset = 0
    ∧ getVehicles { limit := normLimit qlimit, offset := normOffset qoffset } st
        = some ((orderByDesc Vehicle.createdAt st).take 10)
    ∧ ((orderByDesc Vehicle.createdAt st).take 10).length ≤ 10
    ∧ (∀ (s : String) (n : Int), jsParseInt s = some n → n ≠ 0 → normLimit (some s) = n) := by
  have h1 : normLimit qlimit = 10 := by simp [normLimit, hl, jsOr]
  have h2 : normOffset qoffset = 0 := by simp [normOffset, ho, jsOr]
  refine ⟨h1, h2, ?_, ?_, ?_⟩
  · rw [h1, h2]
    simp [getVehicles]
  · rw [List.length_take]
    exact min_le_left _ _
  · intro s n hp hn
    simp [normLimit, parsedParam, jsOr, hp, hn]

/-- Witness for C6: a non-numeric limit and a missing offset. -/
theorem listPaginationDefaults_witness :
    normLimit (some "abc") = 10 ∧ normOffset none = 0
    ∧ getVehicles { limit := normLimit (some "abc"), offset := normOffset none } []
        = some ((orderByDesc Vehicle.createdAt []).take 10)
    ∧ ((orderByDesc Vehicle.createdAt ([] : List Vehicle)).take 10).length ≤ 10
    ∧ (∀ (s : String) (n : Int), jsParseInt s = some n → n ≠ 0 → normLimit (some s) = n) :=
  listPaginationDefaults (some "abc") none [] (by decide) (by rfl)

/-- C7 counterexample: getVehiclesByType applies no limit — six suv rows
all come back — and no order clause: a store holding an older suv before a
newer one comes back in store order, not creation-time descending. -/
theorem vehiclesByTypeUnlimitedUnordered :
    ¬ ((getVehiclesByType "suv"
        [⟨1, 1, "suv", "d", 10⟩, ⟨2, 1, "suv", "d", 20⟩, ⟨3, 1, "suv", "d", 30⟩,
         ⟨4, 1, "suv", "d", 40⟩, ⟨5, 1, "suv", "d", 50⟩, ⟨6, 1, "suv", "d", 60⟩]).length ≤ 5)
    ∧ getVehiclesByType "suv" [⟨1, 1, "suv", "d", 10⟩, ⟨2, 1, "suv", "d", 20⟩]
        ≠ orderByDesc Vehicle.createdAt [⟨1, 1, "suv", "d", 10⟩, ⟨2, 1, "suv", "d", 20⟩] := by
  decide

/-- C7 amended: the by-type vehicle list ignores limit and offset and
imposes no ordering: it is exactly the store-order filter of the vehicle
table, and every returned Vehicle has the requested type. -/
theorem vehiclesByTypeFilter (type : String) (st : List Vehicle) :
    getVehiclesByType type st = st.filter (fun v => v.type == type)
    ∧ (getVehiclesByType type st).all (fun v => v.type == type) = true := by
  refine ⟨rfl, ?_⟩
  rw [List.all_eq_true]
  intro v hv
  exact (List.mem_filter.mp hv).2

/-- C8: when the authorized create payload carries no image, the persisted
row stores the literal default.png — never empty and never a null-like
value — and when a nonempty image payload is present, the persisted row
stores exactly the reference the Blob Store returned. -/
theorem createVehicleImageDefault (saveImage : String → String → String)
    (d : VehiclePayload) (caller now newId : Nat) (st : List Vehicle)
    (hauth : d.userId = caller) :
    (d.image = none →
      createVehicle saveImage d caller now newId st
        = (.created { id := newId, userId := d.userId, type := d.type,
                      image := "default.png", createdAt := now },
           st ++ [{ id := newId, userId := d.userId, type := d.type,
                    image := "default.png", createdAt := now }])
      ∧ ("default.png" : String) ≠ "")
    ∧ (∀ s : String, d.image = some s → s ≠ "" →
      createVehicle saveImage d caller now newId st
        = (.created { id := newId, userId := d.userId, type := d.type,
                      image := saveImage s "vehicle", createdAt := now },
           st ++ [{ id := newId, userId := d.userId, type := d.type,
                    image := saveImage s "vehicle", createdAt := now }])) := by
  constructor
  · intro himg
    refine ⟨?_, by decide⟩
    simp [createVehicle, hauth, himg]
  · intro s himg hs
    simp [createVehicle, hauth, himg, hs]

/-- Witness for C8: an authorized create with no image payload persists the
default reference. -/
theorem createVehicleImageDefault_witness :
    (createVehicle (fun s c => c ++ "/" ++ s) ⟨1, "suv", none⟩ 1 5 9 []).1
      = .created ⟨9, 1, "suv", "default.png", 5⟩ := by
  have h := (createVehicleImageDefault (fun s c => c ++ "/" ++ s)
    ⟨1, "suv", none⟩ 1 5 9 [] rfl).1 rfl
  rw [h.1]

/-- C9 counterexample: the image list route sends the bare controller data
with no envelope, yet it is a successful response. -/
theorem imagesIndexNotEnveloped :
    imagesIndexRoute [⟨1, 2, "a.jpg"⟩] = .bare [⟨1, 2, "a.jpg"⟩]
    ∧ isSuccessBody (imagesIndexRoute [⟨1, 2, "a.jpg"⟩]) = true
    ∧ isEnveloped (imagesIndexRoute [⟨1, 2, "a.jpg"⟩]) = false := by
  decide

/-- C9 amended: every successful response of the embedded routes is
wrapped in the result-200 envelope, except the image list route, which
always sends the bare payload. -/
theorem responseEnvelopeExceptImagesIndex :
    (∀ (ql qo : Option String) (st : List EventRow),
        envelopedIfSuccess (eventsIndexRoute ql qo st) = true)
    ∧ (∀ (id : Nat) (st : List EventRow), envelopedIfSuccess (eventsGetRoute id st) = true)
    ∧ (∀ (id : Nat) (events : List EventRow) (users : List UserRow)
        (comments : List CommentRow) (images : List ImageRow),
        envelopedIfSuccess (eventsIncludeRoute id events users comments images) = true)
    ∧ (∀ (cred : Option Nat) (vehicles : List Vehicle) (p : EventPayload)
        (now newId : Nat) (st : List EventRow),
        envelopedIfSuccess (eventsPostRoute cred vehicles p now newId st).1 = true)
    ∧ (∀ (cred : Option Nat) (id : Nat) (d : EventUpdatePayload) (st : List EventRow),
        envelopedIfSuccess (eventsPutRoute cred id d st).1 = true)
    ∧ (∀ (cred : Option Nat) (id : Nat) (st : List EventRow),
        envelopedIfSuccess (eventsDeleteRoute cred id st).1 = true)
    ∧ (∀ (id : Nat) (st : List ImageRow), envelopedIfSuccess (imagesGetRoute id st) = true)
    ∧ (∀ (id : Nat) (st : List ImageRow),
        envelopedIfSuccess (imagesByEventRoute id st) = true)
    ∧ (∀ (cred : Option Nat) (p : ImagePayload) (newId : Nat) (st : List ImageRow),
        envelopedIfSuccess (imagesPostRoute cred p newId st).1 = true)
    ∧ (∀ (cred : Option Nat) (id : Nat) (st : List ImageRow),
        envelopedIfSuccess (imagesDeleteRoute cred id st).1 = true)
    ∧ (∀ st : List ImageRow,
        imagesIndexRoute st = .bare (getImages st)
        ∧ isEnveloped (imagesIndexRoute st) = false) := by
  refine ⟨?_, ?_, ?_, ?_, ?_, ?_, ?_, ?_, ?_, ?_, ?_⟩
  · intro ql qo st
    unfold eventsIndexRoute
    cases getEvents { limit := normLimit ql, offset := normOffset qo } st <;> rfl
  · intro id st
    unfold eventsGetRoute
    cases getEvent id st <;> rfl
  · intro id events users comments images
    unfold eventsIncludeRoute
    cases getEventIncludeAll id events users comments images <;> rfl
  · intro cred vehicles p now newId st
    unfold eventsPostRoute
    cases cred
    · rfl
    · dsimp only
      split <;> rfl
  · intro cred id d st
    unfold eventsPutRoute
    cases cred
    · rfl
    · dsimp only
      split <;> rfl
  · intro cred id st
    unfold eventsDeleteRoute
    cases cred
    · rfl
    · dsimp only
      split <;> rfl
  · intro id st
    unfold imagesGetRoute
    cases getImage id st <;> rfl
  · intro id st
    rfl
  · intro cred p newId st
    rfl
  · intro cred id st
    unfold imagesDeleteRoute
    dsimp only
    split <;> rfl
  · intro st
    exact ⟨rfl, rfl⟩

/-- C10: every GET request with a single path segment under the image
router is dispatched to the by-id handler, the first registration at the
one-parameter pattern; the by-event handler, registered second at the
identical pattern, is never dispatched for any path. -/
theorem imageByIdShadowsByEvent :
    (∀ s : String, dispatchImageGet [s] = some .getById)
    ∧ (∀ path : List String, (dispatchImageGet path == some .getByEvent) = false) := by
  constructor
  · intro s
    rfl
  · intro path
    cases path with
    | nil => rfl
    | cons a t =>
      cases t with
      | nil => rfl
      | cons b r => rfl

end RideJournal
